import Mathlib

/-!
# Verification of the LUNA Apollo JTAG debug-probe engine

A shallow embedding of the JTAG TAP controller, scan engine and USB command
dispatcher from `firmware/apollo/src/jtag_tap.c`, `firmware/apollo/src/jtag.c`
and `firmware/apollo/src/boards/luna/spi.c`, together with theorems about the
properties the design documentation states.

States are the `jtag_tap_state_t` numbers from `jtag.h`; bytes are `Nat`
values below 256; machine words are `Nat` with explicit truncation where the
C code could overflow.
-/

namespace Luna.Jtag

/-! ## TAP state numbering (`jtag.h`, `enum e_TAPState`) -/

def STATE_TEST_LOGIC_RESET : Nat := 0
def STATE_RUN_TEST_IDLE    : Nat := 1
def STATE_SELECT_DR_SCAN   : Nat := 2
def STATE_CAPTURE_DR       : Nat := 3
def STATE_SHIFT_DR         : Nat := 4
def STATE_EXIT1_DR         : Nat := 5
def STATE_PAUSE_DR         : Nat := 6
def STATE_EXIT2_DR         : Nat := 7
def STATE_UPDATE_DR        : Nat := 8
def STATE_SELECT_IR_SCAN   : Nat := 9
def STATE_CAPTURE_IR       : Nat := 10
def STATE_SHIFT_IR         : Nat := 11
def STATE_EXIT1_IR         : Nat := 12
def STATE_PAUSE_IR         : Nat := 13
def STATE_EXIT2_IR         : Nat := 14
def STATE_UPDATE_IR        : Nat := 15

/-! ## One-step transition table (`jtag_tap.c`, `tms_transitions`)

`TMS_T(high, low)` packs the next state for TMS=1 in the high nibble and the
next state for TMS=0 in the low nibble. -/

def TMS_T (tms_high_state tms_low_state : Nat) : Nat :=
  (tms_high_state <<< 4) ||| tms_low_state

def tms_transitions : List Nat := [
  /- STATE_TEST_LOGIC_RESET -/ TMS_T STATE_TEST_LOGIC_RESET STATE_RUN_TEST_IDLE,
  /- STATE_RUN_TEST_IDLE    -/ TMS_T STATE_SELECT_DR_SCAN   STATE_RUN_TEST_IDLE,
  /- STATE_SELECT_DR_SCAN   -/ TMS_T STATE_SELECT_IR_SCAN   STATE_CAPTURE_DR,
  /- STATE_CAPTURE_DR       -/ TMS_T STATE_EXIT1_DR         STATE_SHIFT_DR,
  /- STATE_SHIFT_DR         -/ TMS_T STATE_EXIT1_DR         STATE_SHIFT_DR,
  /- STATE_EXIT1_DR         -/ TMS_T STATE_UPDATE_DR        STATE_PAUSE_DR,
  /- STATE_PAUSE_DR         -/ TMS_T STATE_EXIT2_DR         STATE_PAUSE_DR,
  /- STATE_EXIT2_DR         -/ TMS_T STATE_UPDATE_DR        STATE_SHIFT_DR,
  /- STATE_UPDATE_DR        -/ TMS_T STATE_SELECT_DR_SCAN   STATE_RUN_TEST_IDLE,
  /- STATE_SELECT_IR_SCAN   -/ TMS_T STATE_TEST_LOGIC_RESET STATE_CAPTURE_IR,
  /- STATE_CAPTURE_IR       -/ TMS_T STATE_EXIT1_IR         STATE_SHIFT_IR,
  /- STATE_SHIFT_IR         -/ TMS_T STATE_EXIT1_IR         STATE_SHIFT_IR,
  /- STATE_EXIT1_IR         -/ TMS_T STATE_UPDATE_IR        STATE_PAUSE_IR,
  /- STATE_PAUSE_IR         -/ TMS_T STATE_EXIT2_IR         STATE_PAUSE_IR,
  /- STATE_EXIT2_IR         -/ TMS_T STATE_UPDATE_IR        STATE_SHIFT_IR,
  /- STATE_UPDATE_IR        -/ TMS_T STATE_SELECT_DR_SCAN   STATE_RUN_TEST_IDLE ]

/-! ## Per-state TMS-choice bitmap (`jtag_tap.c`, `tms_map`)

`BITSTR` packs sixteen bits with argument `A` at bit 15 down to `P` at bit 0.
Bit `target` of `tms_map[current]` is the TMS value to drive to move from
`current` toward `target`. -/

def BITSTR (a b c d e f g h i j k l m n o p : Nat) : Nat :=
  (a <<< 15) ||| (b <<< 14) ||| (c <<< 13) ||| (d <<< 12) |||
  (e <<< 11) ||| (f <<< 10) ||| (g <<<  9) ||| (h <<<  8) |||
  (i <<<  7) ||| (j <<<  6) ||| (k <<<  5) ||| (l <<<  4) |||
  (m <<<  3) ||| (n <<<  2) ||| (o <<<  1) ||| (p <<<  0)

def tms_map : List Nat := [
  /- STATE_TEST_LOGIC_RESET -/ BITSTR 0 0 0 0  0 0 0 0  0 0 0 0  0 0 0 1,
  /- STATE_RUN_TEST_IDLE    -/ BITSTR 1 1 1 1  1 1 1 1  1 1 1 1  1 1 0 1,
  /- STATE_SELECT_DR_SCAN   -/ BITSTR 1 1 1 1  1 1 1 0  0 0 0 0  0 0 1 1,
  /- STATE_CAPTURE_DR       -/ BITSTR 1 1 1 1  1 1 1 1  1 1 1 0  0 1 1 1,
  /- STATE_SHIFT_DR         -/ BITSTR 1 1 1 1  1 1 1 1  1 1 1 0  1 1 1 1,
  /- STATE_EXIT1_DR         -/ BITSTR 1 1 1 1  1 1 1 1  0 0 0 0  1 1 1 1,
  /- STATE_PAUSE_DR         -/ BITSTR 1 1 1 1  1 1 1 1  1 0 1 1  1 1 1 1,
  /- STATE_EXIT2_DR         -/ BITSTR 1 1 1 1  1 1 1 1  0 0 0 0  1 1 1 1,
  /- STATE_UPDATE_DR        -/ BITSTR 1 1 1 1  1 1 1 0  1 1 1 1  1 1 0 1,
  /- STATE_SELECT_IR_SCAN   -/ BITSTR 0 0 0 0  0 0 0 1  1 1 1 1  1 1 1 1,
  /- STATE_CAPTURE_IR       -/ BITSTR 1 1 1 1  0 0 1 1  1 1 1 1  1 1 1 1,
  /- STATE_SHIFT_IR         -/ BITSTR 1 1 1 1  0 1 1 1  1 1 1 1  1 1 1 1,
  /- STATE_EXIT1_IR         -/ BITSTR 1 0 0 0  0 1 1 1  1 1 1 1  1 1 1 1,
  /- STATE_PAUSE_IR         -/ BITSTR 1 1 0 1  1 1 1 1  1 1 1 1  1 1 1 1,
  /- STATE_EXIT2_IR         -/ BITSTR 1 0 0 0  0 1 1 1  1 1 1 1  1 1 1 1,
  /- STATE_UPDATE_IR        -/ BITSTR 0 1 1 1  1 1 1 1  1 1 1 1  1 1 0 1 ]

/-! ## Tracked-state update (`jtag_tap.c`, `jtag_state_ack`)

The firmware keeps the tracked TAP state in a global `current_state`; we pass
it explicitly.  `jtag_state_ack st tms` is the state after one TCK pulse with
the given TMS level. -/

def jtag_state_ack (st : Nat) (tms : Bool) : Nat :=
  if tms then (tms_transitions.getD st 0 >>> 4) &&& 0xf
  else tms_transitions.getD st 0 &&& 0xf

/-- TMS value chosen by the `jtag_go_to_state` loop body:
`(tms_map[jtag_current_state()] >> state) & 1`. -/
def go_to_state_tms (st target : Nat) : Bool :=
  (tms_map.getD st 0 >>> target) &&& 1 = 1

/-- The `while (jtag_current_state() != state)` loop of `jtag_go_to_state`,
with explicit fuel since the C loop has no syntactic bound.  Returns the
list of TMS values issued and the final tracked state, or `none` if the
loop has not reached `target` within `fuel` steps. -/
def go_to_state_loop (target : Nat) : Nat → Nat → Option (List Bool × Nat)
  | 0, st =>
      if st = target then some ([], st) else none
  | fuel + 1, st =>
      if st = target then some ([], st)
      else
        let tms := go_to_state_tms st target
        match go_to_state_loop target fuel (jtag_state_ack st tms) with
        | some (l, st') => some (tms :: l, st')
        | none => none

/-- The walker `jtag_go_to_state` (`jtag_tap.c`): five unconditional TMS=1 steps for
`STATE_TEST_LOGIC_RESET`, otherwise the bitmap-guided greedy loop.  Returns
the TMS trace issued and the final tracked state. -/
def jtag_go_to_state (fuel st state : Nat) : Option (List Bool × Nat) :=
  if state = STATE_TEST_LOGIC_RESET then
    some (List.replicate 5 true,
      jtag_state_ack (jtag_state_ack (jtag_state_ack
        (jtag_state_ack (jtag_state_ack st true) true) true) true) true)
  else
    go_to_state_loop state fuel st

/-! ## The bit-banged shift loop (`jtag_tap.c`, `jtag_tap_shift`)

The physical TDO line is modelled by an oracle `tdoAt : Nat → Bool` giving the
bit captured by `jtag_pulse_clock_and_read_tdo` at each global bit position of
the call.  One record per shifted bit captures what the loop body drove. -/

/-- One iteration of the shift loop: whether TMS was raised (and the tracked
state advanced) before this bit's clock pulse, and the TDI level driven. -/
structure BitAct where
  tms : Bool
  tdi : Bool
deriving DecidableEq, Repr

/-- Inner loop of `jtag_tap_shift`: `for (int j = 0; j < 8 && bit_count-- > 0; ++j)`.
`fuel` is `8 - j`, so the `j < 8` bound is structural; `bit_count` tests the
old value and then decrements (wrapping as a `uint32_t` when it is zero, as
the C post-decrement does on the failing test).  Returns
`(tdo_byte, bit_count, tracked state, per-bit actions)` after the loop. -/
def shiftInner (tdoAt : Nat → Bool) (must_end : Bool) :
    (fuel j byte_out tdo_byte bit_count st pos : Nat) →
    Nat × Nat × Nat × List BitAct
  | 0, _, _, tdo_byte, bit_count, st, _ => (tdo_byte, bit_count, st, [])
  | fuel + 1, j, byte_out, tdo_byte, bit_count, st, pos =>
    if bit_count = 0 then
      -- `bit_count-- > 0` fails; the uint32 post-decrement wraps.
      (tdo_byte, 2 ^ 32 - 1, st, [])
    else
      let bc := bit_count - 1
      -- `if (bit_count == 0 && must_end) { jtag_set_tms(); jtag_state_ack(1); }`
      let fire := bc == 0 && must_end
      let st' := if fire then jtag_state_ack st true else st
      -- `if (byte_out & 1) jtag_set_tdi(); else jtag_clear_tdi();`
      let tdi := byte_out &&& 1 == 1
      -- `bool tdo = jtag_pulse_clock_and_read_tdo();`
      let tdo := tdoAt pos
      -- `tdo_byte |= tdo << j;`
      let tdo_byte' := tdo_byte ||| ((if tdo then 1 else 0) <<< j)
      let rest := shiftInner tdoAt must_end fuel (j + 1) (byte_out >>> 1) tdo_byte' bc st' (pos + 1)
      (rest.1, rest.2.1, rest.2.2.1, ⟨fire, tdi⟩ :: rest.2.2.2)

/-- Outer loop of `jtag_tap_shift`: `for (uint32_t i = 0; i < byte_count; ++i)`.
`bytesLeft` is `byte_count - i` and `input` the slice `input_data + i`.
Returns the output bytes written from index `i` on, the remaining
`bit_count`, the tracked state, and all per-bit actions in time order. -/
def shiftOuter (tdoAt : Nat → Bool) (must_end : Bool) :
    (bytesLeft : Nat) → (input : List Nat) → (bit_count st pos : Nat) →
    List Nat × Nat × Nat × List BitAct
  | 0, _, bit_count, st, _ => ([], bit_count, st, [])
  | i + 1, input, bit_count, st, pos =>
    let byte_out := input.headD 0
    let inner := shiftInner tdoAt must_end 8 0 byte_out 0 bit_count st pos
    let rest := shiftOuter tdoAt must_end i input.tail inner.2.1 inner.2.2.1
      (pos + inner.2.2.2.length)
    (inner.1 :: rest.1, rest.2.1, rest.2.2.1, inner.2.2.2 ++ rest.2.2.2)

/-- The shift routine `jtag_tap_shift` (`jtag_tap.c`): shifts `data_bits` bits of `input_data`
out LSB-first while capturing TDO, raising TMS (and advancing the tracked
state) on the final bit when `must_end`.  Returns the output bytes (one per
processed byte), the tracked state after the call, and the per-bit actions. -/
def jtag_tap_shift (tdoAt : Nat → Bool) (input_data : List Nat)
    (data_bits : Nat) (must_end : Bool) (st : Nat) :
    List Nat × Nat × List BitAct :=
  let byte_count := (data_bits + 7) / 8
  let r := shiftOuter tdoAt must_end byte_count input_data data_bits st 0
  (r.1, r.2.2.1, r.2.2.2)

/-! ## The command dispatcher (`jtag.c`) -/

/-- Capacity of `jtag_out_buffer` and `jtag_in_buffer` (`jtag.c`): 256 bytes. -/
def JTAG_BUFFER_SIZE : Nat := 256

/-- The accept/split logic of `handle_jtag_request_scan` (`jtag.c`): `none`
when the handler stalls, otherwise the `(bytes_to_send_bulk, bits_to_send_slow)`
pair actually used after the advance-rerouting adjustment. -/
def handle_jtag_request_scan_plan (wValue wIndex : Nat) : Option (Nat × Nat) :=
  let bytes_to_send_bulk := wValue / 8
  let bits_to_send_slow := wValue % 8
  -- `if (!bits_to_send_slow && !bytes_to_send_bulk) return false;`
  if bits_to_send_slow = 0 ∧ bytes_to_send_bulk = 0 then none
  -- `if (bytes_to_send_bulk > sizeof(jtag_out_buffer)) return false;`
  else if JTAG_BUFFER_SIZE < bytes_to_send_bulk then none
  -- `if (!bits_to_send_slow && request->wIndex) { bytes_to_send_bulk--; bits_to_send_slow = 8; }`
  else if bits_to_send_slow = 0 ∧ wIndex ≠ 0 then some (bytes_to_send_bulk - 1, 8)
  else some (bytes_to_send_bulk, bits_to_send_slow)

/-- Buffer indices of `jtag_out_buffer` read (and of `jtag_in_buffer`
written) by an accepted scan: `spi_send` touches `0 .. bytes_to_send_bulk-1`
(`received[i] = spi_send_byte(port, to_send[i])`, `boards/luna/spi.c`), and
`jtag_tap_shift` on `jtag_out_buffer + bytes_to_send_bulk` touches
`byte_count = (bits_to_send_slow + 7) / 8` further bytes. -/
def scan_access_indices (wValue wIndex : Nat) : List Nat :=
  match handle_jtag_request_scan_plan wValue wIndex with
  | none => []
  | some (bulk, slow) =>
    List.range bulk ++ (List.range ((slow + 7) / 8)).map (fun i => bulk + i)

/-- The fast path `spi_send` (`boards/luna/spi.c`) exchanges `length` bytes:
`received[i] = spi_send_byte(port, to_send[i])`.  Under the loopback premise
of the round-trip property — every captured bit equals the bit just driven —
`spi_send_byte` returns its argument, so byte `i` of the in buffer becomes
byte `i` of the out buffer. -/
def spi_send_loopback (out_buffer in_buffer : List Nat) (length : Nat) : List Nat :=
  out_buffer.take length ++ in_buffer.drop length

/-- TDI level the bit-banged path drives at global bit `pos` when shifting
from `data`: bit `pos % 8` of byte `pos / 8` (each byte is sent LSB first).
Used as the TDO oracle under the loopback premise. -/
def tdi_bit (data : List Nat) (pos : Nat) : Bool :=
  (data.getD (pos / 8) 0).testBit (pos % 8)

/-- The handler `handle_jtag_request_scan` (`jtag.c`) under the loopback premise (each
captured TDO bit equals the bit currently driven on TDI).  Returns the new
in buffer and tracked state, or `none` when the handler stalls. -/
def handle_jtag_request_scan_loopback (out_buffer in_buffer : List Nat)
    (st : Nat) (wValue wIndex : Nat) : Option (List Nat × Nat) :=
  match handle_jtag_request_scan_plan wValue wIndex with
  | none => none
  | some (bulk, slow) =>
    let in1 := spi_send_loopback out_buffer in_buffer bulk
    if slow ≠ 0 then
      let tail_out := out_buffer.drop bulk
      let r := jtag_tap_shift (tdi_bit tail_out) tail_out slow (wIndex ≠ 0) st
      some (in1.take bulk ++ r.1 ++ in1.drop (bulk + r.1.length), r.2.1)
    else
      some (in1, st)

/-- The handler `handle_jtag_request_set_out_buffer` (`jtag.c`): stalls (returns `false`,
buffer untouched) when `wLength > sizeof(jtag_out_buffer)`; otherwise the
control transfer copies the `wLength`-byte payload `data` into the front of
the out buffer. -/
def handle_jtag_request_set_out_buffer (out_buffer data : List Nat) :
    Bool × List Nat :=
  if JTAG_BUFFER_SIZE < data.length then (false, out_buffer)
  else (true, data ++ out_buffer.drop data.length)

/-- The handler `handle_jtag_request_get_in_buffer` (`jtag.c`): clamps the requested
`wLength` to `sizeof(jtag_in_buffer)` and always answers with that many bytes
of the in buffer — the handler has no stall path. -/
def handle_jtag_request_get_in_buffer (in_buffer : List Nat) (wLength : Nat) :
    List Nat :=
  let length := if JTAG_BUFFER_SIZE < wLength then JTAG_BUFFER_SIZE else wLength
  in_buffer.take length

/-- The round trip of the loopback property: `set_out_buffer(B)`, then
`scan(8 * len(B), advance = false)`, then `get_in_buffer(len(B))`.  A stalled
scan leaves the in buffer unchanged. -/
def loopback_round_trip (B out_buffer in_buffer : List Nat) (st : Nat) :
    List Nat :=
  let set_result := handle_jtag_request_set_out_buffer out_buffer B
  let scan_result :=
    handle_jtag_request_scan_loopback set_result.2 in_buffer st (8 * B.length) 0
  let in_after := (scan_result.map Prod.fst).getD in_buffer
  handle_jtag_request_get_in_buffer in_after B.length

/-! ## Clock-run pin traces (`jtag_tap.c`, `jtag.c`) -/

/-- A write to one of the JTAG control pins. -/
inductive PinOp where
  | setTCK : Bool → PinOp
  | setTMS : Bool → PinOp
deriving DecidableEq, Repr

/-- Pin trace of `jtag_pulse_clock` (`jtag_tap.c`): drive TCK low, then high. -/
def jtag_pulse_clock : List PinOp := [PinOp.setTCK false, PinOp.setTCK true]

/-- Pin trace of `jtag_wait_time` (`jtag_tap.c`): `while (microseconds--) jtag_pulse_clock();` -/
def jtag_wait_time : Nat → List PinOp
  | 0 => []
  | n + 1 => jtag_pulse_clock ++ jtag_wait_time n

/-- Pin trace of `handle_jtag_run_clock` (`jtag.c`): the body is exactly
`jtag_wait_time(request->wValue)` — the `wIndex` field of the request is
never read and the TMS pin is never driven. -/
def handle_jtag_run_clock (wValue _wIndex : Nat) : List PinOp :=
  jtag_wait_time wValue

/-- Number of rising TCK edges in a pin trace. -/
def countTckRises (ops : List PinOp) : Nat :=
  ops.countP (fun op => op == PinOp.setTCK true)

/-- Number of TMS writes in a pin trace. -/
def countTmsWrites (ops : List PinOp) : Nat :=
  ops.countP (fun op => match op with | PinOp.setTMS _ => true | _ => false)

/-! ## Bit order of the two scan paths (`jtag_tap.c`, `jtag.h`) -/

/-- Time-ordered TDI bit sequence the bit-banged slow path drives for one
whole byte, derived from `jtag_tap_shift`: bit 0 of the byte is driven
first.  (The TDO oracle does not influence the driven bits.) -/
def slow_path_tdi_byte (b : Nat) : List Bool :=
  (jtag_tap_shift (fun _ => false) [b] 8 false 0).2.2.map BitAct.tdi

/-- Modelled from the spec: the serial engines covered by
`JTAG_QUIRK_FLIP_BITS_IN_WHOLE_BYTES` "can only send bytes from MSB to LSB,
rather than the LSB to MSB that JTAG requires" (`jtag.h`), so the fast
hardware path drives bit 7 of each whole byte first.  The engine itself is
hardware; no C source for it exists in the repository. -/
def fast_path_tdi_byte_msb_first (b : Nat) : List Bool :=
  [b.testBit 7, b.testBit 6, b.testBit 5, b.testBit 4,
   b.testBit 3, b.testBit 2, b.testBit 1, b.testBit 0]

/-- Modelled from the spec: the quirk handling "requires whole bytes to be
flipped, but not any straggling bits" (`jtag.h`); the flip itself is done by
the host tooling, which is not part of this repository's sources.  Reverses
the eight bits of one byte. -/
def flip_byte (b : Nat) : Nat :=
  (List.range 8).foldl
    (fun acc k => acc ||| ((if b.testBit k then 1 else 0) <<< (7 - k))) 0

/-! ## Helper lemmas -/

set_option maxRecDepth 100000

theorem testBit_ite_one_zero (b : Bool) (k : Nat) :
    ((if b then 1 else 0 : Nat)).testBit k = (b && decide (k = 0)) := by
  cases b <;> cases k <;> simp [Nat.testBit_succ]

theorem ite_one_zero_mod_two (b : Bool) :
    decide ((if b = true then 1 else 0 : Nat) % 2 = 1) = b := by
  cases b <;> simp

/-! ## Claim theorems -/

/-- C1: for every starting state `start` (0–15) and every target state
`target` in 1–15, the `jtag_go_to_state` loop — which repeatedly reads
`TMS = (tms_map[current] >> target) & 1` and applies the `tms_transitions`
table — terminates, reaching exactly state `target` within at most
16 steps. -/
theorem go_to_state_converges (s t : Fin 16) (h : t.val ≠ 0) :
    (jtag_go_to_state 16 s.val t.val).isSome = true ∧
    ((jtag_go_to_state 16 s.val t.val).getD ([], 16)).2 = t.val ∧
    ((jtag_go_to_state 16 s.val t.val).getD ([], 16)).1.length ≤ 16 := by
  revert s t h
  decide

/-- Witness for C1 at `start = CAPTURE_DR` (3), `target = SHIFT_DR` (4). -/
theorem go_to_state_converges_witness :
    ((4 : Fin 16)).val ≠ 0 ∧
    ((jtag_go_to_state 16 (3 : Fin 16).val (4 : Fin 16).val).isSome = true ∧
    ((jtag_go_to_state 16 (3 : Fin 16).val (4 : Fin 16).val).getD ([], 16)).2
      = (4 : Fin 16).val ∧
    ((jtag_go_to_state 16 (3 : Fin 16).val (4 : Fin 16).val).getD
      ([], 16)).1.length ≤ 16) :=
  ⟨by decide, go_to_state_converges 3 4 (by decide)⟩

/-- C2: from every one of the 16 TAP states, applying the TMS=1 transition
(high nibble of the `tms_transitions` entry) five consecutive times yields
`STATE_TEST_LOGIC_RESET`; and `jtag_go_to_state(STATE_TEST_LOGIC_RESET)`
unconditionally issues exactly five `step(true)` transitions, landing on
`STATE_TEST_LOGIC_RESET`, regardless of the current state. -/
theorem five_tms_high_resets (s : Fin 16) :
    jtag_state_ack (jtag_state_ack (jtag_state_ack (jtag_state_ack
      (jtag_state_ack s.val true) true) true) true) true
      = STATE_TEST_LOGIC_RESET ∧
    (jtag_go_to_state 16 s.val STATE_TEST_LOGIC_RESET).map Prod.fst
      = some (List.replicate 5 true) ∧
    (jtag_go_to_state 16 s.val STATE_TEST_LOGIC_RESET).map Prod.snd
      = some STATE_TEST_LOGIC_RESET := by
  revert s
  decide

/-- C3: every accepted scan with advance requested (`wIndex ≠ 0`) and a
nonzero byte-aligned bit count routes `bit_count/8 - 1` bytes through the
fast path and the final 8 bits through the slow bit-banged path; within that
slow tail, TMS is raised (and the tracked state advanced, by one TMS=1
transition) exactly on the 8th — the scan's final — shifted bit. -/
theorem scan_advance_splits_last_byte_slow (wValue wIndex : Nat)
    (tdoAt : Nat → Bool) (input : List Nat) (st : Nat) (hadv : wIndex ≠ 0)
    (halign : wValue % 8 = 0) (hnz : wValue ≠ 0)
    (hcap : wValue / 8 ≤ JTAG_BUFFER_SIZE) :
    handle_jtag_request_scan_plan wValue wIndex = some (wValue / 8 - 1, 8) ∧
    ((jtag_tap_shift tdoAt input 8 true st).2.2).map BitAct.tms
      = [false, false, false, false, false, false, false, true] ∧
    (jtag_tap_shift tdoAt input 8 true st).2.1 = jtag_state_ack st true := by
  refine ⟨?_, ?_⟩
  · unfold handle_jtag_request_scan_plan
    have h1 : ¬(wValue % 8 = 0 ∧ wValue / 8 = 0) := by
      rintro ⟨-, h⟩; omega
    have h2 : ¬ JTAG_BUFFER_SIZE < wValue / 8 := by
      simp only [JTAG_BUFFER_SIZE] at hcap ⊢; omega
    rw [if_neg h1, if_neg h2, if_pos ⟨halign, hadv⟩]
  · simp [jtag_tap_shift, shiftOuter, shiftInner]

/-- Witness for C3 at a 16-bit advancing scan from `SHIFT_DR` (4). -/
theorem scan_advance_splits_last_byte_slow_witness :
    ((1 : Nat) ≠ 0 ∧ (16 : Nat) % 8 = 0 ∧ (16 : Nat) ≠ 0 ∧
      (16 : Nat) / 8 ≤ JTAG_BUFFER_SIZE) ∧
    (handle_jtag_request_scan_plan 16 1 = some (16 / 8 - 1, 8) ∧
    ((jtag_tap_shift (fun _ => false) [0] 8 true 4).2.2).map BitAct.tms
      = [false, false, false, false, false, false, false, true] ∧
    (jtag_tap_shift (fun _ => false) [0] 8 true 4).2.1
      = jtag_state_ack 4 true) :=
  ⟨⟨by decide, by decide, by decide, by decide⟩,
   scan_advance_splits_last_byte_slow 16 1 (fun _ => false) [0] 4
     (by decide) (by decide) (by decide) (by decide)⟩

/-- C4 (refuting the claim as stated, in the code's favor of a bug): the
request `wValue = 2049` passes both dispatcher checks (`wValue ≠ 0`,
`wValue / 8 ≤ 256`), yet the slow tail then accesses buffer index
`256 = bytes_to_send_bulk`, which is not below the 256-byte capacity:
`jtag_out_buffer[256]` is read and `jtag_in_buffer[256]` written. -/
theorem scan_accepts_out_of_bounds_index :
    handle_jtag_request_scan_plan 2049 0 = some (256, 1) ∧
    (2049 : Nat) % 8 ≠ 0 ∧ (2049 : Nat) / 8 ≤ JTAG_BUFFER_SIZE ∧
    256 ∈ scan_access_indices 2049 0 ∧ ¬(256 < JTAG_BUFFER_SIZE) := by
  decide

/-- C5 (refuting the claim as stated, in the code's favor of a bug): the
pin trace of `handle_jtag_run_clock` is identical for `wIndex = 1` and
`wIndex = 0`, contains no TMS write at all (so TMS is neither held at the
`wIndex` level nor restored to 0), and pulses TCK exactly `wValue` times. -/
theorem run_clock_never_drives_tms :
    handle_jtag_run_clock 5 1 = handle_jtag_run_clock 5 0 ∧
    countTmsWrites (handle_jtag_run_clock 5 1) = 0 ∧
    countTckRises (handle_jtag_run_clock 5 1) = 5 := by
  decide

/-- C6: for every byte value, the MSB-first fast hardware path fed the
bit-reversed byte emits the identical time-ordered TDI bit sequence that the
slow bit-banged path emits for the original byte. -/
theorem quirk_flip_fast_path_matches_slow_path (b : Fin 256) :
    fast_path_tdi_byte_msb_first (flip_byte b.val) = slow_path_tdi_byte b.val := by
  revert b
  decide

/-- C7: a scan tail of `r` bits (`0 < r < 8`) produces exactly one output
byte, whose bit `k` is the `k`-th captured TDO bit for `k < r` and zero for
`r ≤ k < 8`: the captured bits are packed LSB-first and right-justified. -/
theorem tail_bits_right_justified (r : Nat) (h1 : 0 < r) (h2 : r < 8)
    (tdoAt : Nat → Bool) (input : List Nat) (must_end : Bool) (st : Nat) :
    (jtag_tap_shift tdoAt input r must_end st).1.length = 1 ∧
    ∀ k, k < 8 →
      ((jtag_tap_shift tdoAt input r must_end st).1.headD 0).testBit k
        = (decide (k < r) && tdoAt k) := by
  interval_cases r <;>
    (refine ⟨by simp [jtag_tap_shift, shiftOuter, shiftInner], ?_⟩
     intro k hk
     interval_cases k <;>
       simp [jtag_tap_shift, shiftOuter, shiftInner, Nat.testBit_or,
         Nat.testBit_shiftLeft, testBit_ite_one_zero, ite_one_zero_mod_two])

/-- Witness for C7 at a 3-bit tail whose second captured bit is high. -/
theorem tail_bits_right_justified_witness :
    ((0 : Nat) < 3 ∧ (3 : Nat) < 8 ∧ (1 : Nat) < 8) ∧
    ((jtag_tap_shift (fun p => p == 1) [255] 3 true 4).1.length = 1 ∧
     ((jtag_tap_shift (fun p => p == 1) [255] 3 true 4).1.headD 0).testBit 1
       = (decide ((1 : Nat) < 3) && ((1 : Nat) == 1))) :=
  ⟨⟨by decide, by decide, by decide⟩,
   ⟨(tail_bits_right_justified 3 (by decide) (by decide)
       (fun p => p == 1) [255] true 4).1,
    (tail_bits_right_justified 3 (by decide) (by decide)
       (fun p => p == 1) [255] true 4).2 1 (by decide)⟩⟩

/-- C8: under the loopback premise (each captured TDO bit equals the bit
currently driven on TDI), `set_out_buffer(B)` then `scan(8·len(B), advance
= false)` then `get_in_buffer(len(B))` returns exactly `B`, for every `B`
of at most 256 bytes. -/
theorem scan_loopback_round_trip (B out_buffer in_buffer : List Nat)
    (st : Nat) (hB : B.length ≤ JTAG_BUFFER_SIZE) :
    loopback_round_trip B out_buffer in_buffer st = B := by
  rcases Nat.eq_zero_or_pos B.length with hn | hn
  · -- empty scan: the scan handler stalls, the in buffer is unchanged,
    -- and get_in_buffer returns zero bytes.
    rw [List.length_eq_zero] at hn
    subst hn
    rfl
  · have hcap : ¬ JTAG_BUFFER_SIZE < B.length := by omega
    have hset : handle_jtag_request_set_out_buffer out_buffer B
        = (true, B ++ out_buffer.drop B.length) := by
      rw [handle_jtag_request_set_out_buffer, if_neg hcap]
    have hplan : handle_jtag_request_scan_plan (8 * B.length) 0
        = some (B.length, 0) := by
      rw [handle_jtag_request_scan_plan]
      simp only [Nat.mul_mod_right,
        Nat.mul_div_cancel_left _ (by norm_num : 0 < 8)]
      rw [if_neg (by omega), if_neg hcap, if_neg (by simp)]
    simp only [loopback_round_trip, hset, handle_jtag_request_scan_loopback,
      hplan, spi_send_loopback, handle_jtag_request_get_in_buffer]
    simp [hcap, List.take_left']

/-- Witness for C8 on the two-byte sequence `[170, 5]`. -/
theorem scan_loopback_round_trip_witness :
    ([170, 5] : List Nat).length ≤ JTAG_BUFFER_SIZE ∧
    loopback_round_trip [170, 5] (List.replicate 256 0)
      (List.replicate 256 0) 0 = [170, 5] :=
  ⟨by decide,
   scan_loopback_round_trip [170, 5] (List.replicate 256 0)
     (List.replicate 256 0) 0 (by decide)⟩

/-- C9: `handle_jtag_request_set_out_buffer` with a payload longer than the
256-byte capacity stalls (returns `false`) and leaves the out buffer
byte-for-byte unchanged; with a payload of at most 256 bytes it succeeds,
the first `wLength` bytes become the payload, and the remainder keeps the
prior contents. -/
theorem set_out_buffer_rejects_oversized (out_buffer data : List Nat) :
    (JTAG_BUFFER_SIZE < data.length →
      handle_jtag_request_set_out_buffer out_buffer data
        = (false, out_buffer)) ∧
    (data.length ≤ JTAG_BUFFER_SIZE →
      (handle_jtag_request_set_out_buffer out_buffer data).1 = true ∧
      (handle_jtag_request_set_out_buffer out_buffer data).2.take data.length
        = data ∧
      (handle_jtag_request_set_out_buffer out_buffer data).2.drop data.length
        = out_buffer.drop data.length) := by
  constructor
  · intro h
    simp [handle_jtag_request_set_out_buffer, h]
  · intro h
    have h' : ¬ JTAG_BUFFER_SIZE < data.length := by omega
    simp [handle_jtag_request_set_out_buffer, h']

/-- Witness for C9: a 257-byte payload stalls and preserves the buffer; a
one-byte payload is copied. -/
theorem set_out_buffer_rejects_oversized_witness :
    (JTAG_BUFFER_SIZE < (List.replicate 257 (7 : Nat)).length ∧
      handle_jtag_request_set_out_buffer [1, 2] (List.replicate 257 7)
        = (false, [1, 2])) ∧
    (([9] : List Nat).length ≤ JTAG_BUFFER_SIZE ∧
      (handle_jtag_request_set_out_buffer [1, 2] [9]).2.take 1 = [9]) :=
  ⟨⟨by decide,
    (set_out_buffer_rejects_oversized [1, 2] (List.replicate 257 7)).1
      (by decide)⟩,
   ⟨by decide,
    ((set_out_buffer_rejects_oversized [1, 2] [9]).2 (by decide)).2.1⟩⟩

/-- C10: `handle_jtag_request_get_in_buffer` never rejects: for every
requested length it returns exactly `min(wLength, 256)` bytes of the in
buffer, silently truncating oversized requests to the 256-byte capacity. -/
theorem get_in_buffer_truncates (in_buffer : List Nat) (wLength : Nat)
    (h : in_buffer.length = JTAG_BUFFER_SIZE) :
    handle_jtag_request_get_in_buffer in_buffer wLength
      = in_buffer.take (min wLength JTAG_BUFFER_SIZE) ∧
    (handle_jtag_request_get_in_buffer in_buffer wLength).length
      = min wLength JTAG_BUFFER_SIZE := by
  unfold handle_jtag_request_get_in_buffer
  by_cases hw : JTAG_BUFFER_SIZE < wLength
  · have : min wLength JTAG_BUFFER_SIZE = JTAG_BUFFER_SIZE := by omega
    simp [hw, this, List.length_take, h]
  · have : min wLength JTAG_BUFFER_SIZE = wLength := by omega
    simp [hw, this, List.length_take, h]

/-- Witness for C10 at a 300-byte request against the 256-byte buffer. -/
theorem get_in_buffer_truncates_witness :
    (List.replicate 256 (0 : Nat)).length = JTAG_BUFFER_SIZE ∧
    (handle_jtag_request_get_in_buffer (List.replicate 256 0) 300).length
      = min 300 JTAG_BUFFER_SIZE :=
  ⟨by decide,
   (get_in_buffer_truncates (List.replicate 256 0) 300 (by decide)).2⟩

end Luna.Jtag
